import Mathlib

/-!
Verification development for the netdata streaming subsystem
(src/streaming/rrdpush.c).  The C code is shallowly embedded: capability
bitmasks become a structure of booleans, stateful functions become pure
functions returning updated state together with a trace of the
buffer/commit actions they perform, and machine integers become Int/Nat.
-/

namespace Rrdpush

/-! ### Capability masks

STREAM_CAPABILITIES is a bitfield.  The enumerators live in
src/streaming/rrdpush.h (declarations only; the header is not part of the
sources here), so the mask is modelled as a structure with one boolean per
capability named in the spec and in the capability_names table of
rrdpush.c.  Bits outside the enumeration are dropped by the final
intersection with the locally supported set in
convert_stream_version_to_capabilities, so carrying only the named bits is
observationally faithful. -/

structure Caps where
  v1 : Bool := false
  v2 : Bool := false
  vn : Bool := false
  vcaps : Bool := false
  hlabels : Bool := false
  claim : Bool := false
  clabels : Bool := false
  lz4 : Bool := false
  functions : Bool := false
  replication : Bool := false
  binary : Bool := false
  interpolated : Bool := false
  ieee754 : Bool := false
  dataWithMl : Bool := false
  dyncfg : Bool := false
  slots : Bool := false
  zstd : Bool := false
  gzip : Bool := false
  brotli : Bool := false
  deriving DecidableEq, Repr

/-- Bitwise AND of two capability masks. -/
def Caps.inter (a b : Caps) : Caps where
  v1 := a.v1 && b.v1
  v2 := a.v2 && b.v2
  vn := a.vn && b.vn
  vcaps := a.vcaps && b.vcaps
  hlabels := a.hlabels && b.hlabels
  claim := a.claim && b.claim
  clabels := a.clabels && b.clabels
  lz4 := a.lz4 && b.lz4
  functions := a.functions && b.functions
  replication := a.replication && b.replication
  binary := a.binary && b.binary
  interpolated := a.interpolated && b.interpolated
  ieee754 := a.ieee754 && b.ieee754
  dataWithMl := a.dataWithMl && b.dataWithMl
  dyncfg := a.dyncfg && b.dyncfg
  slots := a.slots && b.slots
  zstd := a.zstd && b.zstd
  gzip := a.gzip && b.gzip
  brotli := a.brotli && b.brotli

/-- Bitwise AND NOT: the bits of `a` that are not in `b`
(`a & ~b` on the C masks). -/
def Caps.diff (a b : Caps) : Caps where
  v1 := a.v1 && !b.v1
  v2 := a.v2 && !b.v2
  vn := a.vn && !b.vn
  vcaps := a.vcaps && !b.vcaps
  hlabels := a.hlabels && !b.hlabels
  claim := a.claim && !b.claim
  clabels := a.clabels && !b.clabels
  lz4 := a.lz4 && !b.lz4
  functions := a.functions && !b.functions
  replication := a.replication && !b.replication
  binary := a.binary && !b.binary
  interpolated := a.interpolated && !b.interpolated
  ieee754 := a.ieee754 && !b.ieee754
  dataWithMl := a.dataWithMl && !b.dataWithMl
  dyncfg := a.dyncfg && !b.dyncfg
  slots := a.slots && !b.slots
  zstd := a.zstd && !b.zstd
  gzip := a.gzip && !b.gzip
  brotli := a.brotli && !b.brotli

/-- Empty capability mask (STREAM_CAP_NONE). -/
def Caps.none : Caps := {}

/-- Decoded capability mask of a raw advertised integer: the named bits of
the bitfield, in the bit positions of the STREAM_CAPABILITIES enumeration
(declared in rrdpush.h: V1 is bit 1, V2 bit 2, ..., BROTLI bit 19). -/
def decodeCaps (m : Nat) : Caps where
  v1 := m.testBit 1
  v2 := m.testBit 2
  vn := m.testBit 3
  vcaps := m.testBit 4
  hlabels := m.testBit 5
  claim := m.testBit 6
  clabels := m.testBit 7
  lz4 := m.testBit 8
  functions := m.testBit 9
  replication := m.testBit 10
  binary := m.testBit 11
  interpolated := m.testBit 12
  ieee754 := m.testBit 13
  dataWithMl := m.testBit 14
  dyncfg := m.testBit 15
  slots := m.testBit 16
  zstd := m.testBit 17
  gzip := m.testBit 18
  brotli := m.testBit 19

/-- STREAM_OLD_VERSION_CLAIM (rrdpush.h). -/
def STREAM_OLD_VERSION_CLAIM : Int := 3
/-- STREAM_OLD_VERSION_CLABELS (rrdpush.h). -/
def STREAM_OLD_VERSION_CLABELS : Int := 4
/-- STREAM_OLD_VERSION_LZ4 (rrdpush.h). -/
def STREAM_OLD_VERSION_LZ4 : Int := 5

/-- The fixed set of locally supported capabilities listed in
stream_our_capabilities (rrdpush.c lines 1477-1495), for a build with all
four compressors available (STREAM_CAP_COMPRESSIONS_AVAILABLE) and
without NETDATA_TEST_DYNCFG (so DYNCFG is not advertised). -/
def ourCapsRaw : Caps where
  v1 := true
  v2 := true
  vn := true
  vcaps := true
  hlabels := true
  claim := true
  clabels := true
  functions := true
  replication := true
  binary := true
  interpolated := true
  slots := true
  lz4 := true
  zstd := true
  gzip := true
  brotli := true
  ieee754 := true
  dataWithMl := true

/-- stream_our_capabilities (rrdpush.c lines 1459-1496), parameterised by
the disabled mask it computes from globally_disabled_capabilities, the
host's ML state and the sender's disabled_capabilities.  The function
returns the fixed supported set minus the disabled bits. -/
def stream_our_capabilities (disabled : Caps) : Caps :=
  ourCapsRaw.diff disabled

/-- The disabled mask computed at the top of stream_our_capabilities: the
global mask, plus DATA_WITH_ML when the host is a sender whose database
has no anomaly info (no ML running and the receiver did not negotiate
DATA_WITH_ML), plus the sender's own disabled mask. -/
def stream_our_capabilities_disabled_mask
    (globallyDisabled : Caps) (hostAndSender : Bool)
    (mlHostRunning : Bool) (receiverHasDataWithMl : Bool)
    (senderPresent : Bool) (senderDisabled : Caps) : Caps :=
  if hostAndSender then
    let d := if !mlHostRunning && !receiverHasDataWithMl
             then { globallyDisabled with dataWithMl := true }
             else globallyDisabled
    if senderPresent then
      { d with
        v1 := d.v1 || senderDisabled.v1
        v2 := d.v2 || senderDisabled.v2
        vn := d.vn || senderDisabled.vn
        vcaps := d.vcaps || senderDisabled.vcaps
        hlabels := d.hlabels || senderDisabled.hlabels
        claim := d.claim || senderDisabled.claim
        clabels := d.clabels || senderDisabled.clabels
        lz4 := d.lz4 || senderDisabled.lz4
        functions := d.functions || senderDisabled.functions
        replication := d.replication || senderDisabled.replication
        binary := d.binary || senderDisabled.binary
        interpolated := d.interpolated || senderDisabled.interpolated
        ieee754 := d.ieee754 || senderDisabled.ieee754
        dataWithMl := d.dataWithMl || senderDisabled.dataWithMl
        dyncfg := d.dyncfg || senderDisabled.dyncfg
        slots := d.slots || senderDisabled.slots
        zstd := d.zstd || senderDisabled.zstd
        gzip := d.gzip || senderDisabled.gzip
        brotli := d.brotli || senderDisabled.brotli }
    else d
  else globallyDisabled

/-- Mapping of an advertised protocol integer to the peer capability mask:
the if-chain at the top of convert_stream_version_to_capabilities
(rrdpush.c lines 1501-1506).  An integer above STREAM_OLD_VERSION_LZ4 is
the raw capability mask itself. -/
def mapVersionToCaps (version : Int) : Caps :=
  if version ≤ 1 then { v1 := true }
  else if version < STREAM_OLD_VERSION_CLAIM then { v2 := true, hlabels := true }
  else if version ≤ STREAM_OLD_VERSION_CLAIM then
    { vn := true, hlabels := true, claim := true }
  else if version ≤ STREAM_OLD_VERSION_CLABELS then
    { vn := true, hlabels := true, claim := true, clabels := true }
  else if version ≤ STREAM_OLD_VERSION_LZ4 then
    { vn := true, hlabels := true, claim := true, clabels := true, lz4 := true }
  else decodeCaps version.toNat

/-- The three sequential version-strip steps of
convert_stream_version_to_capabilities (rrdpush.c lines 1508-1515):
VCAPS strips V1/V2/VN, then VN strips V1/V2, then V2 strips V1. -/
def seqVersionStrip (c : Caps) : Caps :=
  let caps := c
  let caps := if caps.vcaps then { caps with v1 := false, v2 := false, vn := false } else caps
  let caps := if caps.vn then { caps with v1 := false, v2 := false } else caps
  if caps.v2 then { caps with v1 := false } else caps

/-- convert_stream_version_to_capabilities (rrdpush.c lines 1498-1524):
map the advertised integer, apply the three sequential version-strip
steps, intersect with the locally supported set, and strip DATA_WITH_ML
when INTERPOLATED is absent from the intersection. -/
def convert_stream_version_to_capabilities (version : Int) (disabled : Caps) : Caps :=
  let caps := seqVersionStrip (mapVersionToCaps version)
  let common := caps.inter (stream_our_capabilities disabled)
  if !common.interpolated then { common with dataWithMl := false } else common

/-! ### The spec-side formula for capability negotiation (claim C1)

The following definitions follow the words of the specification, to be
compared with the embedding of the source above. -/

/-- Version-strip rules stated by the spec as one simultaneous rule set:
VCAPS present strips V1/V2/VN; VN present strips V1/V2; V2 present
strips V1. -/
def specVersionStrip (c : Caps) : Caps :=
  { c with
    vn := c.vn && !c.vcaps
    v2 := c.v2 && !(c.vcaps || c.vn)
    v1 := c.v1 && !(c.vcaps || c.vn || c.v2) }

/-- Negotiated mask per the words of claim C1: the intersection of the
peer's mapped capability set (with the version-strip rules applied) with
the locally supported set; if INTERPOLATED is absent from the
intersection, DATA_WITH_ML is also removed. -/
def specNegotiatedMask (version : Int) (disabled : Caps) : Caps :=
  let m := (specVersionStrip (mapVersionToCaps version)).inter
             (stream_our_capabilities disabled)
  if m.interpolated then m else { m with dataWithMl := false }

/-- The three sequential strip steps of the source equal the simultaneous
rule set of the spec. -/
theorem seqStrip_eq_specStrip (c : Caps) :
    seqVersionStrip c = specVersionStrip c := by
  cases c with
  | mk v1 v2 vn vcaps hlabels claim clabels lz4 functions replication binary
      interpolated ieee754 dataWithMl dyncfg slots zstd gzip brotli =>
    cases vcaps <;> cases vn <;> cases v2 <;>
      simp [seqVersionStrip, specVersionStrip]

/-! ### Chart publication (should_send_chart_matching, chart definition,
rrdset_push_metric_initialize) -/

/-- RRDSET flag bits touched by the chart publication path, one boolean
per RRDSET_FLAG_* the embedded functions read or write. -/
structure RrdsetFlags where
  receiverReplicationFinished : Bool := false
  upstreamSend : Bool := false
  upstreamIgnore : Bool := false
  anomalyDetection : Bool := false
  senderReplicationInProgress : Bool := false
  senderReplicationFinished : Bool := false
  upstreamSendVariables : Bool := false
  deriving DecidableEq, Repr

/-- RRDHOST flag bits read by rrdset_push_metric_initialize. -/
structure HostFlags where
  senderReady4Metrics : Bool := false
  senderSpawn : Bool := false
  receiverDisconnected : Bool := false
  senderLoggedStatus : Bool := false
  globalFunctionsUpdated : Bool := false
  deriving DecidableEq, Repr

/-- Environment of should_send_chart_matching: the result of
ml_streaming_enabled() and of matching the chart's id or name against the
host's rrdpush_send_charts_matching pattern. -/
structure MatchEnv where
  mlStreamingEnabled : Bool := false
  patternMatchesIdOrName : Bool := false
  deriving DecidableEq, Repr

/-- should_send_chart_matching (rrdpush.c lines 162-187): returns false
at once while RECEIVER_REPLICATION_FINISHED is clear; otherwise, if the
chart is still unclassified, sets exactly one of UPSTREAM_SEND /
UPSTREAM_IGNORE (per anomaly-detection and pattern match), re-reads the
flags and returns the UPSTREAM_SEND bit.  The returned pair is
(result, updated chart flags). -/
def should_send_chart_matching (env : MatchEnv) (flags : RrdsetFlags) :
    Bool × RrdsetFlags :=
  if !flags.receiverReplicationFinished then (false, flags)
  else
    let flags :=
      if !(flags.upstreamSend || flags.upstreamIgnore) then
        if flags.anomalyDetection then
          if env.mlStreamingEnabled then { flags with upstreamSend := true }
          else { flags with upstreamIgnore := true }
        else if env.patternMatchesIdOrName then { flags with upstreamSend := true }
        else { flags with upstreamIgnore := true }
      else flags
    (flags.upstreamSend, flags)

/-- Buffer/commit actions performed by the sending path, used to state
ordering properties.  appendChartDef stands for the CHART, DIMENSION,
CLABEL, function and variable records written into the buffer;
appendChartDefEnd for the CHART_DEFINITION_END record; commitDefinition
for the sender_commit of that buffer; setDimsExposed / setChartExposed
for the exposed_upstream markers on the dimensions and the chart;
commitGlobalFunctions for the global-functions commit of
rrdset_push_metric_initialize. -/
inductive SendEvent where
  | appendChartDef
  | appendChartDefEnd
  | commitDefinition
  | setDimsExposed
  | setChartExposed
  | commitGlobalFunctions
  deriving DecidableEq, Repr

/-- rrdpush_send_chart_definition (rrdpush.c lines 224-346), restricted
to the state the claims are about: it appends the definition records,
appends CHART_DEFINITION_END and flips the chart into
SENDER_REPLICATION_IN_PROGRESS when STREAM_CAP_REPLICATION is negotiated,
commits the buffer, and only then sets the exposed markers.  Returns
(replication_progress, updated chart flags, chart now exposed, events in
program order). -/
def rrdpush_send_chart_definition (caps : Caps) (flags : RrdsetFlags) :
    Bool × RrdsetFlags × Bool × List SendEvent :=
  if caps.replication then
    let flags :=
      if !flags.senderReplicationInProgress then
        { flags with senderReplicationInProgress := true
                     senderReplicationFinished := false }
      else flags
    (true, flags, true,
     [.appendChartDef, .appendChartDefEnd, .commitDefinition,
      .setDimsExposed, .setChartExposed])
  else
    (false, flags, true,
     [.appendChartDef, .commitDefinition, .setDimsExposed, .setChartExposed])

/-- Result of rrdset_push_metric_initialize: hasBuffer models whether the
returned RRDSET_STREAM_BUFFER carries a non-NULL write buffer; rsbFlags
is the rrdset_flags snapshot stored into it; the remaining fields are the
updated chart state and the actions performed. -/
structure InitResult where
  hasBuffer : Bool
  v2 : Bool
  rsbFlags : RrdsetFlags
  chartFlags : RrdsetFlags
  chartExposed : Bool
  events : List SendEvent
  deriving DecidableEq, Repr

/-- rrdset_push_metric_initialize (rrdpush.c lines 522-575).  Inputs: the
host flags, whether the chart is already exposed upstream, the chart
flags, the negotiated sender capabilities and the matching environment.
When the sender is not ready it returns a NULL buffer; otherwise it
suppresses emission for a chart that is exposed but not
SENDER_REPLICATION_FINISHED or that should not be sent; for an unexposed
chart it emits the definition first, and hands out a value buffer only
when replication is not in progress afterwards. -/
def rrdset_push_metric_initialize (env : MatchEnv) (host : HostFlags)
    (exposed : Bool) (flags : RrdsetFlags) (caps : Caps) : InitResult :=
  if !host.senderReady4Metrics then
    { hasBuffer := false, v2 := false, rsbFlags := flags,
      chartFlags := flags, chartExposed := exposed, events := [] }
  else
    let events := if host.globalFunctionsUpdated then [SendEvent.commitGlobalFunctions] else []
    let replicationInProgress := !flags.senderReplicationFinished
    -- the || of the source short-circuits: should_send_chart_matching is
    -- not called when the chart is exposed with replication unfinished
    if exposed && replicationInProgress then
      { hasBuffer := false, v2 := false, rsbFlags := flags,
        chartFlags := flags, chartExposed := exposed, events := events }
    else
      let (send, flags1) := should_send_chart_matching env flags
      if !send then
        { hasBuffer := false, v2 := false, rsbFlags := flags,
          chartFlags := flags1, chartExposed := exposed, events := events }
      else
        let (replicationInProgress, flags2, exposed2, events2) :=
          if !exposed then
            rrdpush_send_chart_definition caps flags1
          else
            (replicationInProgress, flags1, exposed, [])
        let events := events ++ events2
        if replicationInProgress then
          { hasBuffer := false, v2 := false, rsbFlags := flags,
            chartFlags := flags2, chartExposed := exposed2, events := events }
        else
          { hasBuffer := true,
            v2 := caps.interpolated,
            rsbFlags := flags,
            chartFlags := flags2, chartExposed := exposed2, events := events }

/-! ### v2 value emission (rrddim_push_metrics_v2, rrdset_push_metrics_finished) -/

/-- Wall-clock field of a BEGIN_V2 record: the '#' marker when it equals
the point end time, otherwise the encoded number. -/
inductive WallClockField where
  | same
  | clock (t : Int)
  deriving DecidableEq, Repr

/-- Value field of a SET_V2 record: the '#' marker when the value equals
the dimension's last collected integer value, otherwise the encoded
number. -/
inductive ValueField where
  | same
  | value (v : ℚ)
  deriving DecidableEq, Repr

/-- Records appended to the write buffer by the v2 value path.
chartVariables stands for the custom-chart-variable records that
rrdset_push_metrics_finished may interleave before the final END_V2. -/
inductive V2Rec where
  | beginV2 (chartId : Nat) (updateEvery : Int) (pointEndTime : Int)
      (wallClock : WallClockField)
  | setV2 (dimId : Nat) (lastCollected : Int) (value : ValueField) (snFlags : Nat)
  | endV2
  | chartVariables
  deriving DecidableEq, Repr

/-- RRDSET_STREAM_BUFFER as used by the v2 value path: the write buffer
(NULL modelled as none), the v2 flag, the chart flags snapshot, the wall
clock second, and the BEGIN_V2 framing state. -/
structure StreamBuffer where
  wb : Option (List V2Rec) := none
  v2 : Bool := false
  rsbFlags : RrdsetFlags := {}
  wallClockTime : Int := 0
  lastPointEndTimeS : Int := 0
  beginV2Added : Bool := false
  deriving DecidableEq, Repr

/-- Dimension state read by rrddim_push_metrics_v2: its id, its chart's
id and update_every, and the collector's last collected integer value. -/
structure DimState where
  id : Nat := 0
  chartId : Nat := 0
  updateEvery : Int := 1
  lastCollectedValue : Int := 0
  deriving DecidableEq, Repr

/-- USEC_PER_SEC. -/
def USEC_PER_SEC : Nat := 1000000

/-- rrddim_push_metrics_v2 (rrdpush.c lines 411-470).  valid models the
conjunction netdata_double_isnumber(n) && does_storage_number_exist(flags)
of the guard.  When the point-end-time second differs from the last one,
the previous group is closed with END_V2 (if one is open) and a BEGIN_V2
header is written, with '#' for the wall clock when it equals the point
end time; then a SET_V2 row is appended, with '#' for the value when it
equals the dimension's last collected integer value. -/
def rrddim_push_metrics_v2 (rsb : StreamBuffer) (rd : DimState)
    (pointEndTimeUt : Nat) (n : ℚ) (valid : Bool) (snFlags : Nat) :
    StreamBuffer :=
  match rsb.wb with
  | Option.none => rsb
  | Option.some buf =>
    if !rsb.v2 || !valid then rsb
    else
      let pointEndTimeS : Int := (pointEndTimeUt / USEC_PER_SEC : Nat)
      let (buf, rsb) :=
        if rsb.lastPointEndTimeS ≠ pointEndTimeS then
          let buf := if rsb.beginV2Added then buf ++ [V2Rec.endV2] else buf
          let wc := if pointEndTimeS = rsb.wallClockTime then WallClockField.same
                    else WallClockField.clock rsb.wallClockTime
          (buf ++ [V2Rec.beginV2 rd.chartId rd.updateEvery pointEndTimeS wc],
           { rsb with lastPointEndTimeS := pointEndTimeS, beginV2Added := true })
        else (buf, rsb)
      let v := if (rd.lastCollectedValue : ℚ) = n then ValueField.same
               else ValueField.value n
      { rsb with wb := Option.some (buf ++ [V2Rec.setV2 rd.id rd.lastCollectedValue v snFlags]) }

/-- rrdset_push_metrics_finished (rrdpush.c lines 472-486): when the
buffer is live and a v2 group is open, append the chart variables (when
flagged) and a final END_V2, commit the buffer, and reset the stream
buffer to NULL.  Returns (committed buffer, reset stream buffer). -/
def rrdset_push_metrics_finished (rsb : StreamBuffer) :
    Option (List V2Rec) × StreamBuffer :=
  match rsb.wb with
  | Option.none => (Option.none, rsb)
  | Option.some buf =>
    let buf :=
      if rsb.v2 && rsb.beginV2Added then
        (if rsb.rsbFlags.upstreamSendVariables then buf ++ [V2Rec.chartVariables] else buf)
          ++ [V2Rec.endV2]
      else buf
    (Option.some buf, { wb := Option.none })

/-- Number of BEGIN_V2 records in a buffer. -/
def countBegin : List V2Rec → Nat
  | [] => 0
  | V2Rec.beginV2 _ _ _ _ :: rest => countBegin rest + 1
  | _ :: rest => countBegin rest

/-- Number of END_V2 records in a buffer. -/
def countEnd : List V2Rec → Nat
  | [] => 0
  | V2Rec.endV2 :: rest => countEnd rest + 1
  | _ :: rest => countEnd rest

/-- Framing invariant of the stream buffer: a live write buffer holds one
more BEGIN_V2 than END_V2 exactly when a group is open, and a group can
only be open on a v2 buffer. -/
def FramingInv (rsb : StreamBuffer) : Prop :=
  (∀ buf, rsb.wb = Option.some buf →
    countBegin buf = countEnd buf + (if rsb.beginV2Added then 1 else 0)) ∧
  (rsb.beginV2Added = true → rsb.v2 = true)

/-- One push argument: the dimension, the point end time in microseconds,
the value, its validity, and the storage-number flags. -/
structure PushArg where
  rd : DimState := {}
  ut : Nat := 0
  n : ℚ := 0
  valid : Bool := true
  snFlags : Nat := 0
  deriving Repr

/-- Fold a sequence of v2 pushes over a stream buffer. -/
def pushAll (rsb : StreamBuffer) (points : List PushArg) : StreamBuffer :=
  points.foldl (fun r p => rrddim_push_metrics_v2 r p.rd p.ut p.n p.valid p.snFlags) rsb

/-! ### Destination registry (connect_to_one_of_destinations) -/

/-- struct rrdpush_destinations, with the destination string replaced by
a numeric identity. -/
structure Destination where
  dest : Nat := 0
  ssl : Bool := false
  since : Int := 0
  attempts : Nat := 0
  postponeReconnectionUntil : Int := 0
  deriving DecidableEq, Repr

/-- connect_to_one_of_destinations (rrdpush.c lines 714-759), with the
socket connect modelled by the oracle connects.  The loop scans the list
in order, skips entries postponed beyond now, stamps since/attempts on
each attempted entry, and on the first successful connect moves that
entry to the tail of the whole list and stops.  Returns the connected
destination (none when the list is exhausted) and the updated list.
The recursion carries the already-scanned prefix. -/
def connectLoop (now : Int) (connects : Nat → Bool)
    (acc : List Destination) : List Destination →
    Option Nat × List Destination
  | [] => (Option.none, acc)
  | d :: rest =>
    if d.postponeReconnectionUntil > now then
      connectLoop now connects (acc ++ [d]) rest
    else
      let d := { d with since := now, attempts := d.attempts + 1 }
      if connects d.dest then
        (Option.some d.dest, (acc ++ rest) ++ [d])
      else
        connectLoop now connects (acc ++ [d]) rest

/-- connect_to_one_of_destinations on the host's full destination list. -/
def connect_to_one_of_destinations (now : Int) (connects : Nat → Bool)
    (destinations : List Destination) : Option Nat × List Destination :=
  connectLoop now connects [] destinations

/-! ### Receiver connection admission (rrdpush_receiver_thread_spawn) -/

/-- Outcome of rrdpush_receiver_thread_spawn, one constructor per return
path of the function. -/
inductive ReceiverDecision where
  | busyTryLater        -- service not accepting streaming connections
  | permissionDenied    -- one of the 401 validation rejections
  | sameLocalhost       -- machine guid equals the local machine id
  | rateLimited         -- global accept rate limit hit
  | alreadyStreaming    -- another receiver holds the host
  | internalError       -- receiver thread creation failed
  | accepted
  deriving DecidableEq, Repr

/-- HTTP status codes of the web layer (HTTP_RESP_*). -/
def HTTP_RESP_OK : Nat := 200
/-- HTTP_RESP_UNAUTHORIZED. -/
def HTTP_RESP_UNAUTHORIZED : Nat := 401
/-- HTTP_RESP_CONFLICT. -/
def HTTP_RESP_CONFLICT : Nat := 409
/-- HTTP_RESP_SERVICE_UNAVAILABLE. -/
def HTTP_RESP_SERVICE_UNAVAILABLE : Nat := 503
/-- HTTP_RESP_INTERNAL_SERVER_ERROR. -/
def HTTP_RESP_INTERNAL_SERVER_ERROR : Nat := 500

/-- Inputs of rrdpush_receiver_thread_spawn: the outcome of each check
the function performs, in the order the source performs them. -/
structure ReceiverRequest where
  serviceRunning : Bool := true
  keyPresent : Bool := true
  hostnamePresent : Bool := true
  machineGuidPresent : Bool := true
  keyIsValidUuid : Bool := true
  machineGuidIsValidUuid : Bool := true
  apiKeyTypeIsApi : Bool := true
  apiKeyEnabled : Bool := true
  keyAllowsFromThisIp : Bool := true
  machineGuidTypeIsMachine : Bool := true
  machineGuidEnabled : Bool := true
  machineAllowsFromThisIp : Bool := true
  machineGuidIsLocalhost : Bool := false
  rateLimitHit : Bool := false
  hostFound : Bool := false
  hostArchived : Bool := false
  hostHasReceiver : Bool := false
  receiverAge : Int := 0          -- now_monotonic_sec() - receiver->last_msg_t
  stopStaleReceiverSucceeds : Bool := true
  threadCreateSucceeds : Bool := true
  deriving DecidableEq, Repr

/-- Result of rrdpush_receiver_thread_spawn: the decision, the HTTP
status returned, whether the web socket was taken over from the HTTP
layer, whether the incumbent receiver was signalled to stop, and whether
a Host was created by this function (it never creates one; hosts are
resolved or created later, in the receiver worker thread). -/
structure ReceiverResult where
  decision : ReceiverDecision
  httpCode : Nat
  socketTakenOver : Bool := false
  incumbentSignalledToStop : Bool := false
  hostCreated : Bool := false
  deriving DecidableEq, Repr

/-- rrdpush_receiver_thread_spawn (rrdpush.c lines 913-1331): the service
gate, the 401 validation ladder, the same-localhost path (which takes
over the socket, writes the START_STREAMING_ERROR_SAME_LOCALHOST marker
and returns HTTP 200), the global rate limit, the duplicate-receiver
check (409 when a receiver exists and is younger than 30 s, or when it is
stale and stopping it failed), and finally socket takeover plus worker
thread creation. -/
def rrdpush_receiver_thread_spawn (r : ReceiverRequest) : ReceiverResult :=
  if !r.serviceRunning then
    { decision := ReceiverDecision.busyTryLater, httpCode := HTTP_RESP_SERVICE_UNAVAILABLE }
  else if !r.keyPresent || !r.hostnamePresent || !r.machineGuidPresent
       || !r.keyIsValidUuid || !r.machineGuidIsValidUuid
       || !r.apiKeyTypeIsApi || !r.apiKeyEnabled || !r.keyAllowsFromThisIp
       || !r.machineGuidTypeIsMachine || !r.machineGuidEnabled
       || !r.machineAllowsFromThisIp then
    { decision := ReceiverDecision.permissionDenied, httpCode := HTTP_RESP_UNAUTHORIZED }
  else if r.machineGuidIsLocalhost then
    { decision := ReceiverDecision.sameLocalhost, httpCode := HTTP_RESP_OK,
      socketTakenOver := true }
  else if r.rateLimitHit then
    { decision := ReceiverDecision.rateLimited, httpCode := HTTP_RESP_SERVICE_UNAVAILABLE }
  else
    let hostLive := r.hostFound && !r.hostArchived
    let receiverPresent := hostLive && r.hostHasReceiver
    let receiverWorking := receiverPresent && decide (r.receiverAge < 30)
    let receiverStale := receiverPresent && !decide (r.receiverAge < 30)
    let stoppedStale := receiverStale && r.stopStaleReceiverSucceeds
    let receiverStale := receiverStale && !stoppedStale
    if receiverWorking || receiverStale then
      { decision := ReceiverDecision.alreadyStreaming, httpCode := HTTP_RESP_CONFLICT,
        incumbentSignalledToStop := receiverPresent && !receiverWorking }
    else if !r.threadCreateSucceeds then
      { decision := ReceiverDecision.internalError,
        httpCode := HTTP_RESP_INTERNAL_SERVER_ERROR,
        socketTakenOver := true,
        incumbentSignalledToStop := receiverPresent && !receiverWorking }
    else
      { decision := ReceiverDecision.accepted, httpCode := HTTP_RESP_OK,
        socketTakenOver := true,
        incumbentSignalledToStop := receiverPresent && !receiverWorking }

/-! ### Claim theorems -/

/-- C1: for every advertised protocol integer (or raw capability mask)
and every disabled mask, convert_stream_version_to_capabilities returns
the intersection of the peer's mapped capability set with the locally
supported set, with the version-strip rules applied (VCAPS strips
V1/V2/VN; VN strips V1/V2; V2 strips V1) and DATA_WITH_ML removed
whenever INTERPOLATED is absent from the intersection. -/
theorem convert_matches_spec_negotiated_mask (version : Int) (disabled : Caps) :
    convert_stream_version_to_capabilities version disabled =
      specNegotiatedMask version disabled := by
  unfold convert_stream_version_to_capabilities specNegotiatedMask
  rw [seqStrip_eq_specStrip]
  cases h : ((specVersionStrip (mapVersionToCaps version)).inter
      (stream_our_capabilities disabled)).interpolated <;> simp [h]

/-- C8: every advertised protocol integer in the unrecognized range
(at most 1: absent, zero or garbage versions) is coerced to the
capability set containing exactly V1, not to an error, when no
capability is disabled locally. -/
theorem unrecognized_version_yields_v1 (version : Int) (h : version ≤ 1) :
    convert_stream_version_to_capabilities version Caps.none =
      { v1 := true } := by
  have hm : mapVersionToCaps version = { v1 := true } := by
    unfold mapVersionToCaps
    rw [if_pos h]
  unfold convert_stream_version_to_capabilities
  rw [hm]
  decide

/-- Witness for C8 at the concrete advertised integer 0 (the value used
when no ver parameter is supplied). -/
theorem unrecognized_version_yields_v1_witness :
    convert_stream_version_to_capabilities 0 Caps.none = { v1 := true } :=
  unrecognized_version_yields_v1 0 (by decide)

/-- C10: while RECEIVER_REPLICATION_FINISHED is clear,
should_send_chart_matching returns false immediately and leaves the
chart flags untouched, so the chart is not classified (neither
UPSTREAM_SEND nor UPSTREAM_IGNORE is set) and is not published. -/
theorem unfinished_receiver_replication_defers_classification
    (env : MatchEnv) (flags : RrdsetFlags)
    (h : flags.receiverReplicationFinished = false) :
    should_send_chart_matching env flags = (false, flags) := by
  unfold should_send_chart_matching
  rw [h]
  simp

/-- Witness for C10 on a concrete unclassified chart that would match
the send pattern. -/
theorem unfinished_receiver_replication_defers_classification_witness :
    should_send_chart_matching { patternMatchesIdOrName := true }
        { receiverReplicationFinished := false } =
      (false, { receiverReplicationFinished := false }) :=
  unfinished_receiver_replication_defers_classification
    { patternMatchesIdOrName := true }
    { receiverReplicationFinished := false } rfl

/-- C2 counterexample: with REPLICATION not negotiated, a yet-unexposed
chart whose SENDER_REPLICATION_FINISHED flag is clear at entry still gets
a live write buffer: rrdpush_send_chart_definition returns false without
touching the replication flags, so rrdset_push_metric_initialize hands
out value records although the flag was clear at entry. -/
theorem initialize_hands_buffer_despite_unfinished_replication :
    (({ senderReplicationFinished := false, receiverReplicationFinished := true } :
        RrdsetFlags).senderReplicationFinished = false) ∧
    ( rrdset_push_metric_initialize
        { patternMatchesIdOrName := true }
        { senderReady4Metrics := true }
        false
        { senderReplicationFinished := false, receiverReplicationFinished := true }
        {}).hasBuffer = true := by
  constructor
  · rfl
  · decide

/-- C2 amended: rrdset_push_metric_initialize returns a StreamBuffer with
a NULL write buffer whenever the chart's SENDER_REPLICATION_FINISHED flag
is clear at entry, provided the chart is already exposed upstream or the
REPLICATION capability is negotiated (the latter covers the case where
the definition just emitted put the chart into
SENDER_REPLICATION_IN_PROGRESS). -/
theorem initialize_suppresses_values_while_replication_unfinished
    (env : MatchEnv) (host : HostFlags) (exposed : Bool)
    (flags : RrdsetFlags) (caps : Caps)
    (h : flags.senderReplicationFinished = false)
    (hcase : exposed = true ∨ caps.replication = true) :
    ( rrdset_push_metric_initialize env host exposed flags caps).hasBuffer
      = false := by
  rcases hss : should_send_chart_matching env flags with ⟨send, flags1⟩
  unfold rrdset_push_metric_initialize
  cases hr : host.senderReady4Metrics
  · simp
  · rcases hcase with he | hrep
    · subst he
      simp [h]
    · cases exposed
      · cases send
        · simp [h, hss]
        · simp [h, hss, rrdpush_send_chart_definition, hrep]
      · simp [h]

/-- Witness for the amended C2: an exposed chart with the flag clear gets
no buffer, and an unexposed chart on a REPLICATION connection gets no
buffer either. -/
theorem initialize_suppresses_values_while_replication_unfinished_witness :
    ( rrdset_push_metric_initialize
        { patternMatchesIdOrName := true } { senderReady4Metrics := true }
        true { senderReplicationFinished := false, receiverReplicationFinished := true }
        {}).hasBuffer = false ∧
    ( rrdset_push_metric_initialize
        { patternMatchesIdOrName := true } { senderReady4Metrics := true }
        false { senderReplicationFinished := false, receiverReplicationFinished := true }
        { replication := true }).hasBuffer = false := by
  constructor
  · exact initialize_suppresses_values_while_replication_unfinished
      _ _ _ _ _ rfl (Or.inl rfl)
  · exact initialize_suppresses_values_while_replication_unfinished
      _ _ _ _ _ rfl (Or.inr rfl)

/-- The chart definition path always commits the definition buffer. -/
theorem commit_mem_defEvents (caps : Caps) (flags : RrdsetFlags) :
    SendEvent.commitDefinition ∈ (rrdpush_send_chart_definition caps flags).2.2.2 := by
  cases h : caps.replication <;> simp [rrdpush_send_chart_definition, h]

/-- Every occurrence of an exposed_upstream marker in an action trace is
strictly preceded by a commit of the definition buffer. -/
def ExposeAfterCommit (l : List SendEvent) : Prop :=
  ∀ i : Fin l.length,
    (l.get i = SendEvent.setChartExposed ∨ l.get i = SendEvent.setDimsExposed) →
    ∃ j : Fin l.length, (j : Nat) < (i : Nat) ∧ l.get j = SendEvent.commitDefinition

instance (l : List SendEvent) : Decidable (ExposeAfterCommit l) := by
  unfold ExposeAfterCommit
  infer_instance

/-- C3: per-chart ordering of definition and values.  First, whenever
rrdset_push_metric_initialize is entered with a chart that is not yet
exposed upstream and returns a live value buffer, a commit of the chart
definition is among the actions it performed before returning, so the
CHART definition reaches the sender buffer before any value record of
the chart.  Second, in the action trace of rrdpush_send_chart_definition
the exposed_upstream markers on the chart and its dimensions are set
only after the sender_commit of the definition. -/
theorem chart_definition_precedes_values_and_exposure
    (env : MatchEnv) (host : HostFlags) (flags : RrdsetFlags) (caps : Caps) :
    (( rrdset_push_metric_initialize env host false flags caps).hasBuffer = true →
      SendEvent.commitDefinition ∈
        ( rrdset_push_metric_initialize env host false flags caps).events) ∧
    ExposeAfterCommit (rrdpush_send_chart_definition caps flags).2.2.2 := by
  constructor
  · unfold rrdset_push_metric_initialize
    cases hr : host.senderReady4Metrics
    · simp
    · rcases hss : should_send_chart_matching env flags with ⟨send, flags1⟩
      cases send
      · simp [hss]
      · rcases hdef : rrdpush_send_chart_definition caps flags1 with
          ⟨rip, flags2, exposed2, events2⟩
        have hmem : SendEvent.commitDefinition ∈ events2 := by
          have hc := commit_mem_defEvents caps flags1
          rw [hdef] at hc
          exact hc
        cases rip <;> simp [hss, hdef, hmem]
  · cases h : caps.replication
    · have he : (rrdpush_send_chart_definition caps flags).2.2.2 =
          [SendEvent.appendChartDef, SendEvent.commitDefinition,
           SendEvent.setDimsExposed, SendEvent.setChartExposed] := by
        simp [rrdpush_send_chart_definition, h]
      rw [he]
      decide
    · have he : (rrdpush_send_chart_definition caps flags).2.2.2 =
          [SendEvent.appendChartDef, SendEvent.appendChartDefEnd,
           SendEvent.commitDefinition, SendEvent.setDimsExposed,
           SendEvent.setChartExposed] := by
        simp [rrdpush_send_chart_definition, h]
      rw [he]
      decide

/-- Witness for C3 at a concrete unexposed chart that matches the send
pattern on a connection without REPLICATION (the returned buffer is
live, and the commit indeed precedes the exposure markers). -/
theorem chart_definition_precedes_values_and_exposure_witness :
    (( rrdset_push_metric_initialize { patternMatchesIdOrName := true }
        { senderReady4Metrics := true } false
        { receiverReplicationFinished := true, senderReplicationFinished := true }
        {}).hasBuffer = true →
      SendEvent.commitDefinition ∈
        ( rrdset_push_metric_initialize { patternMatchesIdOrName := true }
          { senderReady4Metrics := true } false
          { receiverReplicationFinished := true, senderReplicationFinished := true }
          {}).events) ∧
    ExposeAfterCommit (rrdpush_send_chart_definition {}
        { receiverReplicationFinished := true, senderReplicationFinished := true }).2.2.2 :=
  chart_definition_precedes_values_and_exposure
    { patternMatchesIdOrName := true } { senderReady4Metrics := true }
    { receiverReplicationFinished := true, senderReplicationFinished := true } {}

/-- C4: for an inbound request that passes the validation ladder and
whose machine guid resolves to an existing non-archived host holding a
receiver, rrdpush_receiver_thread_spawn returns HTTP 409 ("already
streaming") when the incumbent's last-message age is below 30 seconds,
without signalling the incumbent and without taking over the socket;
when the age is 30 seconds or more it signals the stale receiver to
stop, and the new connection is accepted only if that stop succeeded. -/
theorem duplicate_receiver_handling (r : ReceiverRequest)
    (hsvc : r.serviceRunning = true)
    (hkey : r.keyPresent = true) (hhn : r.hostnamePresent = true)
    (hmg : r.machineGuidPresent = true)
    (hku : r.keyIsValidUuid = true) (hmu : r.machineGuidIsValidUuid = true)
    (hkt : r.apiKeyTypeIsApi = true) (hke : r.apiKeyEnabled = true)
    (hki : r.keyAllowsFromThisIp = true)
    (hmt : r.machineGuidTypeIsMachine = true) (hme : r.machineGuidEnabled = true)
    (hmi : r.machineAllowsFromThisIp = true)
    (hloc : r.machineGuidIsLocalhost = false) (hrate : r.rateLimitHit = false)
    (hhost : r.hostFound = true) (harch : r.hostArchived = false)
    (hrecv : r.hostHasReceiver = true) :
    (r.receiverAge < 30 →
      rrdpush_receiver_thread_spawn r =
        { decision := ReceiverDecision.alreadyStreaming,
          httpCode := HTTP_RESP_CONFLICT }) ∧
    (30 ≤ r.receiverAge →
      (rrdpush_receiver_thread_spawn r).incumbentSignalledToStop = true ∧
      ((rrdpush_receiver_thread_spawn r).decision = ReceiverDecision.accepted →
        r.stopStaleReceiverSucceeds = true)) := by
  unfold rrdpush_receiver_thread_spawn
  simp only [hsvc, hkey, hhn, hmg, hku, hmu, hkt, hke, hki, hmt, hme, hmi,
    hloc, hrate, hhost, harch, hrecv]
  constructor
  · intro hage
    simp [hage]
  · intro hage
    have hnage : ¬(r.receiverAge < 30) := not_lt.mpr hage
    cases hstop : r.stopStaleReceiverSucceeds
    · simp [hnage, hstop]
    · cases hthr : r.threadCreateSucceeds <;> simp [hnage, hstop, hthr]

/-- Witness for C4: a request with a 10-second-old incumbent is rejected
with 409 untouched, and one with a 45-second-old incumbent whose stop
succeeds signals the incumbent. -/
theorem duplicate_receiver_handling_witness :
    ((10 : Int) < 30 →
      rrdpush_receiver_thread_spawn
          { hostFound := true, hostHasReceiver := true, receiverAge := 10 } =
        { decision := ReceiverDecision.alreadyStreaming,
          httpCode := HTTP_RESP_CONFLICT }) ∧
    ((30 : Int) ≤ 45 →
      (rrdpush_receiver_thread_spawn
          { hostFound := true, hostHasReceiver := true, receiverAge := 45 }).incumbentSignalledToStop = true ∧
      ((rrdpush_receiver_thread_spawn
          { hostFound := true, hostHasReceiver := true, receiverAge := 45 }).decision
            = ReceiverDecision.accepted →
        ({ hostFound := true, hostHasReceiver := true, receiverAge := 45 } :
            ReceiverRequest).stopStaleReceiverSucceeds = true)) :=
  ⟨(duplicate_receiver_handling
      { hostFound := true, hostHasReceiver := true, receiverAge := 10 }
      rfl rfl rfl rfl rfl rfl rfl rfl rfl rfl rfl rfl rfl rfl rfl rfl rfl).1,
   (duplicate_receiver_handling
      { hostFound := true, hostHasReceiver := true, receiverAge := 45 }
      rfl rfl rfl rfl rfl rfl rfl rfl rfl rfl rfl rfl rfl rfl rfl rfl rfl).2⟩

/-- C9 counterexample: a request whose machine guid equals the local
machine id is answered with the same-localhost marker and HTTP 200 (the
socket is taken over and the marker is written to it directly), not with
HTTP 401 as the claim states. -/
theorem same_localhost_returns_200_not_401 :
    (rrdpush_receiver_thread_spawn { machineGuidIsLocalhost := true }).decision
        = ReceiverDecision.sameLocalhost ∧
    (rrdpush_receiver_thread_spawn { machineGuidIsLocalhost := true }).httpCode
        = HTTP_RESP_OK ∧
    (rrdpush_receiver_thread_spawn { machineGuidIsLocalhost := true }).httpCode
        ≠ HTTP_RESP_UNAUTHORIZED := by
  refine ⟨rfl, rfl, ?_⟩
  decide

/-- C9 amended: for every inbound request that passes the validation
ladder and whose machine guid equals the local machine id,
rrdpush_receiver_thread_spawn takes over the socket, responds with the
plain-text "same localhost" marker and returns HTTP 200 (not 401), and
creates no Host. -/
theorem same_localhost_rejection (r : ReceiverRequest)
    (hsvc : r.serviceRunning = true)
    (hkey : r.keyPresent = true) (hhn : r.hostnamePresent = true)
    (hmg : r.machineGuidPresent = true)
    (hku : r.keyIsValidUuid = true) (hmu : r.machineGuidIsValidUuid = true)
    (hkt : r.apiKeyTypeIsApi = true) (hke : r.apiKeyEnabled = true)
    (hki : r.keyAllowsFromThisIp = true)
    (hmt : r.machineGuidTypeIsMachine = true) (hme : r.machineGuidEnabled = true)
    (hmi : r.machineAllowsFromThisIp = true)
    (hloc : r.machineGuidIsLocalhost = true) :
    rrdpush_receiver_thread_spawn r =
      { decision := ReceiverDecision.sameLocalhost, httpCode := HTTP_RESP_OK,
        socketTakenOver := true, hostCreated := false } := by
  unfold rrdpush_receiver_thread_spawn
  simp [hsvc, hkey, hhn, hmg, hku, hmu, hkt, hke, hki, hmt, hme, hmi, hloc]

/-- Witness for the amended C9 at a concrete request. -/
theorem same_localhost_rejection_witness :
    rrdpush_receiver_thread_spawn { machineGuidIsLocalhost := true } =
      { decision := ReceiverDecision.sameLocalhost, httpCode := HTTP_RESP_OK,
        socketTakenOver := true, hostCreated := false } :=
  same_localhost_rejection { machineGuidIsLocalhost := true }
    rfl rfl rfl rfl rfl rfl rfl rfl rfl rfl rfl rfl rfl

/-- Inner induction for the destination loop: a successful scan returns
the connected destination and a list whose last element is that
destination. -/
theorem connectLoop_success_tail (now : Int) (connects : Nat → Bool)
    (l : List Destination) :
    ∀ (acc l' : List Destination) (sid : Nat),
      connectLoop now connects acc l = (Option.some sid, l') →
      connects sid = true ∧ l'.getLast?.map Destination.dest = Option.some sid := by
  induction l with
  | nil =>
    intro acc l' sid h
    simp [connectLoop] at h
  | cons d rest ih =>
    intro acc l' sid h
    unfold connectLoop at h
    by_cases hp : d.postponeReconnectionUntil > now
    · rw [if_pos hp] at h
      exact ih _ _ _ h
    · rw [if_neg hp] at h
      cases hc : connects d.dest
      · rw [if_neg (by simp [hc])] at h
        exact ih _ _ _ h
      · rw [if_pos (by simp [hc])] at h
        rw [Prod.mk.injEq] at h
        obtain ⟨h1, h2⟩ := h
        obtain rfl : d.dest = sid := by simpa using h1
        refine ⟨hc, ?_⟩
        rw [← h2, List.getLast?_concat]
        rfl

/-- C7 counterexample: with two destinations and every connect failing,
connect_to_one_of_destinations leaves the list order unchanged (only
since/attempts are stamped): the failed head destination stays at the
head instead of being moved to the tail. -/
theorem failed_connect_leaves_destination_in_place :
    connect_to_one_of_destinations 100 (fun _ => false)
        [{ dest := 0 }, { dest := 1 }] =
      (Option.none,
       [{ dest := 0, since := 100, attempts := 1 },
        { dest := 1, since := 100, attempts := 1 }]) ∧
    ((connect_to_one_of_destinations 100 (fun _ => false)
        [{ dest := 0 }, { dest := 1 }]).2.head?.map Destination.dest
      = Option.some 0) := by
  constructor
  · decide
  · decide

/-- C7 amended: it is after a successful connect that
connect_to_one_of_destinations moves the chosen destination to the tail
of the list, so that subsequent probing advances past it; destinations
whose connect failed are left in place. -/
theorem successful_connect_moves_destination_to_tail
    (now : Int) (connects : Nat → Bool) (l l' : List Destination) (sid : Nat)
    (h : connect_to_one_of_destinations now connects l = (Option.some sid, l')) :
    connects sid = true ∧ l'.getLast?.map Destination.dest = Option.some sid :=
  connectLoop_success_tail now connects l [] l' sid h

/-- Witness for the amended C7: the first destination fails, the second
connects and ends up at the tail of the updated list. -/
theorem successful_connect_moves_destination_to_tail_witness :
    (fun n => n == 1) 1 = true ∧
    ([{ dest := 0, since := 100, attempts := 1 },
      { dest := 1, since := 100, attempts := 1 }] :
        List Destination).getLast?.map Destination.dest = Option.some 1 :=
  successful_connect_moves_destination_to_tail 100 (fun n => n == 1)
    [{ dest := 0 }, { dest := 1 }]
    [{ dest := 0, since := 100, attempts := 1 },
     { dest := 1, since := 100, attempts := 1 }] 1 (by decide)

/-- countBegin distributes over append. -/
theorem countBegin_append (a b : List V2Rec) :
    countBegin (a ++ b) = countBegin a + countBegin b := by
  induction a with
  | nil => simp [countBegin]
  | cons r rest ih => cases r <;> simp [countBegin, ih] <;> omega

/-- countEnd distributes over append. -/
theorem countEnd_append (a b : List V2Rec) :
    countEnd (a ++ b) = countEnd a + countEnd b := by
  induction a with
  | nil => simp [countEnd]
  | cons r rest ih => cases r <;> simp [countEnd, ih] <;> omega

/-- A single v2 push preserves the framing invariant. -/
theorem push_preserves_FramingInv (rsb : StreamBuffer) (rd : DimState)
    (ut : Nat) (n : ℚ) (valid : Bool) (fl : Nat) (h : FramingInv rsb) :
    FramingInv (rrddim_push_metrics_v2 rsb rd ut n valid fl) := by
  rcases h with ⟨hcount, hv2⟩
  cases hwb : rsb.wb with
  | none =>
    simp only [rrddim_push_metrics_v2, hwb]
    exact ⟨hcount, hv2⟩
  | some buf =>
    simp only [rrddim_push_metrics_v2, hwb]
    cases hv : rsb.v2 with
    | false =>
      simp only [hv, Bool.not_false, Bool.true_or, if_pos]
      exact ⟨hcount, hv2⟩
    | true =>
      cases hval : valid with
      | false =>
        simp only [hv, hval, Bool.not_false, Bool.not_true, Bool.false_or, if_pos]
        exact ⟨hcount, hv2⟩
      | true =>
        simp only [hv, hval, Bool.not_true, Bool.or_self, Bool.false_eq_true,
          if_false]
        have hbase := hcount buf hwb
        by_cases hne : rsb.lastPointEndTimeS ≠ ((ut / USEC_PER_SEC : Nat) : Int)
        · rw [if_pos hne]
          constructor
          · intro buf2 hbuf2
            simp only [Option.some.injEq] at hbuf2
            subst hbuf2
            cases hb : rsb.beginV2Added <;>
              rw [hb] at hbase <;>
              simp only [if_true, if_false, Bool.false_eq_true] at hbase <;>
              simp [hb, countBegin_append, countEnd_append, countBegin, countEnd] <;>
              omega
          · intro _
            simp [hv]
        · rw [if_neg hne]
          constructor
          · intro buf2 hbuf2
            simp only [Option.some.injEq] at hbuf2
            subst hbuf2
            cases hb : rsb.beginV2Added <;>
              rw [hb] at hbase <;>
              simp only [if_true, if_false, Bool.false_eq_true] at hbase <;>
              simp [hb, countBegin_append, countEnd_append, countBegin, countEnd] <;>
              omega
          · intro hx
            have hx2 : rsb.beginV2Added = true := by simpa using hx
            simpa using hv2 hx2

/-- A whole sequence of v2 pushes preserves the framing invariant. -/
theorem pushAll_preserves_FramingInv (points : List PushArg) :
    ∀ rsb : StreamBuffer, FramingInv rsb → FramingInv (pushAll rsb points) := by
  induction points with
  | nil => intro rsb h; exact h
  | cons p rest ih =>
    intro rsb h
    exact ih _ (push_preserves_FramingInv rsb p.rd p.ut p.n p.valid p.snFlags h)

/-- On a buffer satisfying the framing invariant,
rrdset_push_metrics_finished commits a balanced buffer. -/
theorem finished_commits_balanced (rsb : StreamBuffer) (h : FramingInv rsb) :
    ∀ buf, (rrdset_push_metrics_finished rsb).1 = Option.some buf →
      countBegin buf = countEnd buf := by
  rcases h with ⟨hcount, hv2⟩
  intro buf hbuf
  cases hwb : rsb.wb with
  | none => simp [rrdset_push_metrics_finished, hwb] at hbuf
  | some buf0 =>
    simp only [rrdset_push_metrics_finished, hwb, Option.some.injEq] at hbuf
    have hbase := hcount buf0 hwb
    by_cases hopen : rsb.v2 && rsb.beginV2Added
    · rw [if_pos hopen] at hbuf
      have hb : rsb.beginV2Added = true := by
        cases hx : rsb.beginV2Added
        · rw [hx] at hopen; simp at hopen
        · rfl
      rw [hb] at hbase
      simp only [if_true] at hbase
      subst hbuf
      cases hvars : rsb.rsbFlags.upstreamSendVariables <;>
        simp [hvars, countBegin_append, countEnd_append, countBegin, countEnd] <;>
        omega
    · rw [if_neg hopen] at hbuf
      subst hbuf
      cases hb : rsb.beginV2Added with
      | false =>
        rw [hb] at hbase
        simpa using hbase
      | true =>
        exfalso
        rw [hv2 hb, hb] at hopen
        simp at hopen

/-- Cast of the point-end-time second into Int commutes with the
division by USEC_PER_SEC. -/
theorem petCast (ut : Nat) :
    ((ut / USEC_PER_SEC : Nat) : Int) = (ut : Int) / ((USEC_PER_SEC : Nat) : Int) := by
  simp

/-- C5: v2 framing discipline.  Per call, a point whose end-time second
equals the last one appends only a SET_V2 row, while a point at a new
second closes the open group with END_V2 (when one is open) and writes
exactly one BEGIN_V2 header before its SET_V2 row; and for every
sequence of pushes into a freshly initialized v2 stream buffer,
rrdset_push_metrics_finished appends the final END_V2 when a group is
open, so the committed buffer has balanced BEGIN_V2/END_V2 pairs. -/
theorem begin_v2_once_per_second_and_balanced
    (points : List PushArg) (flags : RrdsetFlags) (wc : Int)
    (rsb : StreamBuffer) (buf : List V2Rec) (rd : DimState)
    (ut : Nat) (n : ℚ) (fl : Nat)
    (hwb : rsb.wb = Option.some buf) (hv2 : rsb.v2 = true) :
    (((ut / USEC_PER_SEC : Nat) : Int) = rsb.lastPointEndTimeS →
      ∃ v, (rrddim_push_metrics_v2 rsb rd ut n true fl).wb =
        Option.some (buf ++ [V2Rec.setV2 rd.id rd.lastCollectedValue v fl])) ∧
    (((ut / USEC_PER_SEC : Nat) : Int) ≠ rsb.lastPointEndTimeS →
      ∃ w v, (rrddim_push_metrics_v2 rsb rd ut n true fl).wb =
        Option.some ((if rsb.beginV2Added then buf ++ [V2Rec.endV2] else buf) ++
          [V2Rec.beginV2 rd.chartId rd.updateEvery ((ut / USEC_PER_SEC : Nat) : Int) w,
           V2Rec.setV2 rd.id rd.lastCollectedValue v fl])) ∧
    (∀ committed,
      (rrdset_push_metrics_finished
        (pushAll { wb := Option.some [], v2 := true, rsbFlags := flags,
                   wallClockTime := wc } points)).1 = Option.some committed →
      countBegin committed = countEnd committed) := by
  refine ⟨?_, ?_, ?_⟩
  · intro heq
    refine ⟨if (rd.lastCollectedValue : ℚ) = n then ValueField.same
            else ValueField.value n, ?_⟩
    have hcond : rsb.lastPointEndTimeS = (ut : Int) / ((USEC_PER_SEC : Nat) : Int) := by
      rw [← heq, petCast]
    simp only [rrddim_push_metrics_v2, hwb, hv2]
    simp [hcond]
  · intro hne
    refine ⟨if ((ut / USEC_PER_SEC : Nat) : Int) = rsb.wallClockTime
              then WallClockField.same else WallClockField.clock rsb.wallClockTime,
            if (rd.lastCollectedValue : ℚ) = n then ValueField.same
              else ValueField.value n, ?_⟩
    have hcond : rsb.lastPointEndTimeS ≠ (ut : Int) / ((USEC_PER_SEC : Nat) : Int) :=
      fun hx => hne (by rw [petCast, ← hx])
    simp only [rrddim_push_metrics_v2, hwb, hv2]
    simp [hcond]
  · exact finished_commits_balanced _
      (pushAll_preserves_FramingInv points _
        ⟨by intro b hb; simp at hb; subst hb; rfl, by intro hx; rfl⟩)

/-- Witness for C5 on a concrete two-point commit: the second point at
the same second appends only a SET_V2 row, a point at a new second opens
a new group, and the committed buffer of a concrete push sequence is
balanced. -/
theorem begin_v2_once_per_second_and_balanced_witness :
    (((2000000 / USEC_PER_SEC : Nat) : Int) = 2 →
      ∃ v, (rrddim_push_metrics_v2
          { wb := Option.some [], v2 := true, wallClockTime := 2,
            lastPointEndTimeS := 2, beginV2Added := true }
          {} 2000000 5 true 0).wb =
        Option.some ([] ++ [V2Rec.setV2 0 0 v 0])) ∧
    (((2000000 / USEC_PER_SEC : Nat) : Int) ≠ 2 →
      ∃ w v, (rrddim_push_metrics_v2
          { wb := Option.some [], v2 := true, wallClockTime := 2,
            lastPointEndTimeS := 2, beginV2Added := true }
          {} 2000000 5 true 0).wb =
        Option.some ((if true then [] ++ [V2Rec.endV2] else []) ++
          [V2Rec.beginV2 0 1 ((2000000 / USEC_PER_SEC : Nat) : Int) w,
           V2Rec.setV2 0 0 v 0])) ∧
    (∀ committed,
      (rrdset_push_metrics_finished
        (pushAll { wb := Option.some [], v2 := true, rsbFlags := {},
                   wallClockTime := 3 }
          [{ ut := 2000000 }, { ut := 2500000 }, { ut := 3000000 }])).1
        = Option.some committed →
      countBegin committed = countEnd committed) :=
  begin_v2_once_per_second_and_balanced
    [{ ut := 2000000 }, { ut := 2500000 }, { ut := 3000000 }] {} 3
    { wb := Option.some [], v2 := true, wallClockTime := 2,
      lastPointEndTimeS := 2, beginV2Added := true }
    [] {} 2000000 5 0 rfl rfl

/-- C6: the one-byte '#' marker.  For a v2 push at a new point-end-time
second, the BEGIN_V2 header carries '#' in the wall-clock field exactly
when the wall-clock time equals the point end time (otherwise the
encoded wall-clock number), and the SET_V2 row carries '#' in the value
field exactly when the value equals the dimension's last collected
integer value (otherwise the encoded value); the same value-field rule
applies to a push at an unchanged second. -/
theorem hash_marker_iff_equal
    (rsb : StreamBuffer) (buf : List V2Rec) (rd : DimState)
    (ut : Nat) (n : ℚ) (fl : Nat)
    (hwb : rsb.wb = Option.some buf) (hv2 : rsb.v2 = true) :
    (((ut / USEC_PER_SEC : Nat) : Int) ≠ rsb.lastPointEndTimeS →
      ∃ w v, (rrddim_push_metrics_v2 rsb rd ut n true fl).wb =
        Option.some ((if rsb.beginV2Added then buf ++ [V2Rec.endV2] else buf) ++
          [V2Rec.beginV2 rd.chartId rd.updateEvery ((ut / USEC_PER_SEC : Nat) : Int) w,
           V2Rec.setV2 rd.id rd.lastCollectedValue v fl]) ∧
        (w = WallClockField.same ↔
          ((ut / USEC_PER_SEC : Nat) : Int) = rsb.wallClockTime) ∧
        (v = ValueField.same ↔ (rd.lastCollectedValue : ℚ) = n)) ∧
    (((ut / USEC_PER_SEC : Nat) : Int) = rsb.lastPointEndTimeS →
      ∃ v, (rrddim_push_metrics_v2 rsb rd ut n true fl).wb =
        Option.some (buf ++ [V2Rec.setV2 rd.id rd.lastCollectedValue v fl]) ∧
        (v = ValueField.same ↔ (rd.lastCollectedValue : ℚ) = n)) := by
  constructor
  · intro hne
    refine ⟨if ((ut / USEC_PER_SEC : Nat) : Int) = rsb.wallClockTime
              then WallClockField.same else WallClockField.clock rsb.wallClockTime,
            if (rd.lastCollectedValue : ℚ) = n then ValueField.same
              else ValueField.value n, ?_, ?_, ?_⟩
    · have hcond : rsb.lastPointEndTimeS ≠ (ut : Int) / ((USEC_PER_SEC : Nat) : Int) :=
        fun hx => hne (by rw [petCast, ← hx])
      simp only [rrddim_push_metrics_v2, hwb, hv2]
      simp [hcond]
    · by_cases hwc : ((ut / USEC_PER_SEC : Nat) : Int) = rsb.wallClockTime <;>
        simp [hwc]
    · by_cases hval : (rd.lastCollectedValue : ℚ) = n <;> simp [hval]
  · intro heq
    refine ⟨if (rd.lastCollectedValue : ℚ) = n then ValueField.same
              else ValueField.value n, ?_, ?_⟩
    · have hcond : rsb.lastPointEndTimeS = (ut : Int) / ((USEC_PER_SEC : Nat) : Int) := by
        rw [← heq, petCast]
      simp only [rrddim_push_metrics_v2, hwb, hv2]
      simp [hcond]
    · by_cases hval : (rd.lastCollectedValue : ℚ) = n <;> simp [hval]

/-- Witness for C6 on a concrete push whose wall clock equals the point
end time and whose value equals the last collected value. -/
theorem hash_marker_iff_equal_witness :
    (((2000000 / USEC_PER_SEC : Nat) : Int) ≠ 0 →
      ∃ w v, (rrddim_push_metrics_v2
          { wb := Option.some [], v2 := true, wallClockTime := 2 }
          { lastCollectedValue := 42 } 2000000 42 true 0).wb =
        Option.some ((if false then [] ++ [V2Rec.endV2] else ([] : List V2Rec)) ++
          [V2Rec.beginV2 0 1 ((2000000 / USEC_PER_SEC : Nat) : Int) w,
           V2Rec.setV2 0 42 v 0]) ∧
        (w = WallClockField.same ↔ ((2000000 / USEC_PER_SEC : Nat) : Int) = 2) ∧
        (v = ValueField.same ↔ ((42 : Int) : ℚ) = 42)) ∧
    (((2000000 / USEC_PER_SEC : Nat) : Int) = 0 →
      ∃ v, (rrddim_push_metrics_v2
          { wb := Option.some [], v2 := true, wallClockTime := 2 }
          { lastCollectedValue := 42 } 2000000 42 true 0).wb =
        Option.some ([] ++ [V2Rec.setV2 0 42 v 0]) ∧
        (v = ValueField.same ↔ ((42 : Int) : ℚ) = 42)) :=
  hash_marker_iff_equal
    { wb := Option.some [], v2 := true, wallClockTime := 2 }
    [] { lastCollectedValue := 42 } 2000000 42 0 rfl rfl

end Rrdpush
